import Mathlib

/-!
# Shallow embedding of the Olist order feature-engineering pipeline

This file embeds `src/olist/order.py` (class `Order`) in Lean 4.

Modelling conventions:
* a pandas `DataFrame` is a `List` of records, one structure per table schema;
* a pandas missing value (`NaN` / `NaT`) is `Option.none`; columns that are
  never null in the model carry plain values;
* timestamps are rational numbers of nanoseconds since the epoch (pandas'
  internal unit), so that dividing a difference by `pd.Timedelta(days=1)`
  is division by `nsPerDay`;
* `merge(..., on=k)` (an inner hash-join) is a nested loop over the left
  rows, in left order, pairing each with the matching right rows in right
  order — exactly pandas' row ordering for `how="inner"`;
* `groupby(k)` (pandas default `sort=True`) enumerates the distinct keys in
  ascending order and aggregates the rows of each group; the group of a key
  is the sublist of rows carrying that key, in source order;
* the haversine helper `haversine_distance` lives in `olist/utils.py`;
  the distance pipeline is parameterised by an arbitrary distance function
  `hav lng1 lat1 lng2 lat2` (the argument order used at the call site in
  `get_distance_seller_customer`), so every theorem holds for the actual
  haversine function as a special case.

Column names ending in `_zip_code_` + `prefix` are abbreviated to `_zip`
(`seller_zip`, `customer_zip`, `geo_zip`).
-/

namespace Olist

/-- One day, `pd.Timedelta(days=1)`, in pandas' internal unit (nanoseconds). -/
def nsPerDay : ℚ := 86400 * 1000000000

/-- A row of the `orders` table. Timestamp columns may be null (`NaT`). -/
structure OrderRow where
  order_id : String
  customer_id : String
  order_status : String
  order_purchase_timestamp : Option ℚ
  order_approved_at : Option ℚ
  order_delivered_carrier_date : Option ℚ
  order_delivered_customer_date : Option ℚ
  order_estimated_delivery_date : Option ℚ
deriving DecidableEq

/-- A row of the `order_items` table. -/
structure OrderItemRow where
  order_id : String
  order_item_id : Nat
  product_id : String
  seller_id : String
  price : ℚ
  freight_value : ℚ
deriving DecidableEq

/-- A row of the `order_reviews` table (`review_score` is an integer 1–5). -/
structure ReviewRow where
  review_id : String
  order_id : String
  review_score : Int
deriving DecidableEq

/-- A row of the `sellers` table (`seller_zip` is `seller_zip_code_` + `prefix`). -/
structure SellerRow where
  seller_id : String
  seller_zip : Nat
deriving DecidableEq

/-- A row of the `customers` table (`customer_zip` is `customer_zip_code_` + `prefix`). -/
structure CustomerRow where
  customer_id : String
  customer_zip : Nat
deriving DecidableEq

/-- A row of the `geolocation` table (`geo_zip` is `geolocation_zip_code_` + `prefix`). -/
structure GeoRow where
  geo_zip : Nat
  geolocation_lat : ℚ
  geolocation_lng : ℚ
deriving DecidableEq

/-- The dict returned by `Olist().get_data()`, restricted to the six tables
the `Order` class reads. -/
structure Dataset where
  orders : List OrderRow
  order_items : List OrderItemRow
  order_reviews : List ReviewRow
  sellers : List SellerRow
  customers : List CustomerRow
  geolocation : List GeoRow
deriving DecidableEq

/-! ## NaN-propagating arithmetic on nullable columns -/

/-- Computes `(series1 - series2) / pd.Timedelta(days=1)`; pandas returns `NaN`
when either operand is `NaT`. -/
def calc_day_delta (a b : Option ℚ) : Option ℚ :=
  match a, b with
  | some x, some y => some ((x - y) / nsPerDay)
  | _, _ => none

/-- Subtraction of two nullable series values (`NaN` propagates). -/
def nanSub (a b : Option ℚ) : Option ℚ :=
  match a, b with
  | some x, some y => some (x - y)
  | _, _ => none

/-- Applies `np.maximum(·, 0)` to a nullable value (`np.maximum(NaN, 0)` is `NaN`). -/
def nanMax0 (a : Option ℚ) : Option ℚ :=
  a.map fun x => max x 0

/-! ## Relational combinators (pandas `merge` / `groupby`) -/

/-- Inner `merge` on a `String` key: for each left row, in order, all
matching right rows, in order. -/
def innerMergeOn {α β γ : Type} (ka : α → String) (kb : β → String)
    (mk : α → β → γ) (l : List α) (r : List β) : List γ :=
  l.flatMap fun a => (r.filter fun b => kb b == ka a).map fun b => mk a b

/-- The distinct keys of a list of rows, in ascending order
(pandas `groupby` with the default `sort=True`). -/
def keysOf {α κ : Type} [DecidableEq κ] (r : κ → κ → Prop) [DecidableRel r]
    (key : α → κ) (l : List α) : List κ :=
  (l.map key).dedup.insertionSort r

/-- The group of key `k`: the rows carrying that key, in source order. -/
def groupRows {α κ : Type} [BEq κ] (key : α → κ) (k : κ) (l : List α) :
    List α :=
  l.filter fun a => key a == k

/-! ## `Order.get_wait_time` -/

/-- A row of the frame returned by `get_wait_time`. -/
structure WaitTimeRow where
  order_id : String
  wait_time : Option ℚ
  expected_wait_time : Option ℚ
  delay_vs_expected : Option ℚ
  order_status : String
deriving DecidableEq

/-- The per-row body of `get_wait_time`: the three derived timing
columns of one order row. -/
def waitRowOf (o : OrderRow) : WaitTimeRow :=
  let wait_time := calc_day_delta o.order_delivered_customer_date
    o.order_purchase_timestamp
  let expected_wait_time := calc_day_delta o.order_estimated_delivery_date
    o.order_purchase_timestamp
  { order_id := o.order_id
    wait_time := wait_time
    expected_wait_time := expected_wait_time
    delay_vs_expected := nanMax0 (nanSub wait_time expected_wait_time)
    order_status := o.order_status }

/-- Embeds `Order.get_wait_time(is_delivered)`: optionally keep only delivered
orders, then derive the three timing features per row. -/
def get_wait_time (orders : List OrderRow) (is_delivered : Bool) :
    List WaitTimeRow :=
  (if is_delivered then
      orders.filter fun o => o.order_status == "delivered"
    else orders).map waitRowOf

/-! ## `Order.get_review_score` -/

/-- A row of the frame returned by `get_review_score`. -/
structure ReviewFeatureRow where
  order_id : String
  dim_is_five_star : Int
  dim_is_one_star : Int
  review_score : Int
deriving DecidableEq

/-- Embeds `Order.get_review_score`: one output row per review row, with the two
dummy columns `(review_score == 5).astype(int)` and
`(review_score == 1).astype(int)`. -/
def get_review_score (reviews : List ReviewRow) : List ReviewFeatureRow :=
  reviews.map fun r =>
    { order_id := r.order_id
      dim_is_five_star := if r.review_score == (5 : Int) then 1 else 0
      dim_is_one_star := if r.review_score == (1 : Int) then 1 else 0
      review_score := r.review_score }

/-! ## `Order.get_number_items`, `get_number_sellers`, `get_price_and_freight` -/

/-- A row of the frame returned by `get_number_items`. -/
structure ItemsCountRow where
  order_id : String
  number_of_items : Nat
deriving DecidableEq

/-- Embeds `Order.get_number_items`: group `order_items` by `order_id` and count
the `order_item_id` column (never null in the model, so the count is the
group size). -/
def get_number_items (order_items : List OrderItemRow) : List ItemsCountRow :=
  (keysOf (· ≤ ·) OrderItemRow.order_id order_items).map fun k =>
    { order_id := k
      number_of_items :=
        (groupRows OrderItemRow.order_id k order_items).length }

/-- A row of the frame returned by `get_number_sellers`. -/
structure SellersCountRow where
  order_id : String
  number_of_sellers : Nat
deriving DecidableEq

/-- Embeds `Order.get_number_sellers`: group `order_items` by `order_id` and count
the distinct `seller_id` values (`nunique`). -/
def get_number_sellers (order_items : List OrderItemRow) :
    List SellersCountRow :=
  (keysOf (· ≤ ·) OrderItemRow.order_id order_items).map fun k =>
    { order_id := k
      number_of_sellers :=
        (((groupRows OrderItemRow.order_id k order_items).map
          OrderItemRow.seller_id).dedup).length }

/-- A row of the frame returned by `get_price_and_freight`. -/
structure PriceFreightRow where
  order_id : String
  price : ℚ
  freight_value : ℚ
deriving DecidableEq

/-- Embeds `Order.get_price_and_freight`: group `order_items` by `order_id` and sum
`price` and `freight_value`. -/
def get_price_and_freight (order_items : List OrderItemRow) :
    List PriceFreightRow :=
  (keysOf (· ≤ ·) OrderItemRow.order_id order_items).map fun k =>
    { order_id := k
      price :=
        ((groupRows OrderItemRow.order_id k order_items).map
          OrderItemRow.price).sum
      freight_value :=
        ((groupRows OrderItemRow.order_id k order_items).map
          OrderItemRow.freight_value).sum }

/-! ## `Order.get_distance_seller_customer` -/

/-- The type of the abstract distance function; the source calls
`haversine_distance(lng1, lat1, lng2, lat2)` from `olist/utils.py`. -/
def DistFun : Type := ℚ → ℚ → ℚ → ℚ → ℚ

/-- The deduplicated geolocation frame
`geo.groupby("geolocation_zip_code_" + "prefix", as_index=False).first()`:
one row per zip prefix, carrying the values of the first row of its group
(all columns are non-null in the model, so pandas' per-column
first-non-null is the first row), keys in ascending order. -/
def geoIndex (geo : List GeoRow) : List GeoRow :=
  (keysOf (· ≤ ·) GeoRow.geo_zip geo).filterMap fun z =>
    (groupRows GeoRow.geo_zip z geo).head?

/-- A row of `sellers_geo`: a seller left-joined to the geo index. -/
structure SellerGeoRow where
  seller_id : String
  seller_zip : Nat
  geolocation_lat : Option ℚ
  geolocation_lng : Option ℚ
deriving DecidableEq

/-- Embeds `sellers.merge(geo, how="left", ...)[sellers_mask_columns]`: every
seller row, with coordinates null when its zip prefix is absent from the
geo index. -/
def sellers_geo (sellers : List SellerRow) (gi : List GeoRow) :
    List SellerGeoRow :=
  sellers.flatMap fun s =>
    match gi.filter fun g => g.geo_zip == s.seller_zip with
    | [] => [{ seller_id := s.seller_id, seller_zip := s.seller_zip,
               geolocation_lat := none, geolocation_lng := none }]
    | ms => ms.map fun g =>
        { seller_id := s.seller_id, seller_zip := s.seller_zip,
          geolocation_lat := some g.geolocation_lat,
          geolocation_lng := some g.geolocation_lng }

/-- A row of `customers_geo`: a customer left-joined to the geo index. -/
structure CustomerGeoRow where
  customer_id : String
  customer_zip : Nat
  geolocation_lat : Option ℚ
  geolocation_lng : Option ℚ
deriving DecidableEq

/-- Embeds `customers.merge(geo, how="left", ...)[customers_mask_columns]`. -/
def customers_geo (customers : List CustomerRow) (gi : List GeoRow) :
    List CustomerGeoRow :=
  customers.flatMap fun c =>
    match gi.filter fun g => g.geo_zip == c.customer_zip with
    | [] => [{ customer_id := c.customer_id, customer_zip := c.customer_zip,
               geolocation_lat := none, geolocation_lng := none }]
    | ms => ms.map fun g =>
        { customer_id := c.customer_id, customer_zip := c.customer_zip,
          geolocation_lat := some g.geolocation_lat,
          geolocation_lng := some g.geolocation_lng }

/-- A row of `customers_sellers`: the selected columns of
`customers ⋈ orders ⋈ order_items ⋈ sellers`. -/
structure CSRow where
  order_id : String
  customer_id : String
  customer_zip : Nat
  seller_id : String
  seller_zip : Nat
deriving DecidableEq

/-- Embeds `customers.merge(orders, on="customer_id").merge(order_items,
on="order_id").merge(sellers, on="seller_id")[...]`: one row per
(order, item line, seller, customer) match. -/
def customers_sellers (customers : List CustomerRow) (orders : List OrderRow)
    (order_items : List OrderItemRow) (sellers : List SellerRow) :
    List CSRow :=
  customers.flatMap fun c =>
    (orders.filter fun o => o.customer_id == c.customer_id).flatMap fun o =>
      (order_items.filter fun i => i.order_id == o.order_id).flatMap fun i =>
        (sellers.filter fun s => s.seller_id == i.seller_id).map fun s =>
          { order_id := o.order_id, customer_id := c.customer_id,
            customer_zip := c.customer_zip, seller_id := s.seller_id,
            seller_zip := s.seller_zip }

/-- A row of `matching_geo` before `dropna()`. The duplicated zip columns
produced by the pandas merges are never null and never read again, so they
are omitted; only the four nullable coordinate columns matter. -/
structure MatchRow where
  order_id : String
  customer_id : String
  seller_id : String
  lat_seller : Option ℚ
  lng_seller : Option ℚ
  lat_customer : Option ℚ
  lng_customer : Option ℚ
deriving DecidableEq

/-- Embeds `customers_sellers.merge(sellers_geo, on="seller_id").merge(
customers_geo, on="customer_id", suffixes=("_seller", "_customer"))`. -/
def matchingGeo (d : Dataset) : List MatchRow :=
  let gi := geoIndex d.geolocation
  let sg := sellers_geo d.sellers gi
  let cg := customers_geo d.customers gi
  let cs := customers_sellers d.customers d.orders d.order_items d.sellers
  cs.flatMap fun x =>
    (sg.filter fun s => s.seller_id == x.seller_id).flatMap fun s =>
      (cg.filter fun c => c.customer_id == x.customer_id).map fun c =>
        { order_id := x.order_id, customer_id := x.customer_id,
          seller_id := x.seller_id,
          lat_seller := s.geolocation_lat, lng_seller := s.geolocation_lng,
          lat_customer := c.geolocation_lat, lng_customer := c.geolocation_lng }

/-- A row of `matching_geo` after `dropna()`: all coordinates present. -/
structure MatchedRow where
  order_id : String
  customer_id : String
  seller_id : String
  lat_seller : ℚ
  lng_seller : ℚ
  lat_customer : ℚ
  lng_customer : ℚ
deriving DecidableEq

/-- Embeds `matching_geo.dropna()`: keep exactly the rows whose four coordinate
columns are all present (every other column is non-null by construction). -/
def matchingGeoDropped (d : Dataset) : List MatchedRow :=
  (matchingGeo d).filterMap fun m =>
    match m.lat_seller, m.lng_seller, m.lat_customer, m.lng_customer with
    | some la, some lo, some lc, some oc =>
        some { order_id := m.order_id, customer_id := m.customer_id,
               seller_id := m.seller_id,
               lat_seller := la, lng_seller := lo,
               lat_customer := lc, lng_customer := oc }
    | _, _, _, _ => none

/-- The `distance_seller_customer` column: the row-level call
`haversine_distance(lng_seller, lat_seller, lng_customer, lat_customer)`. -/
def distOf (hav : DistFun) (m : MatchedRow) : ℚ :=
  hav m.lng_seller m.lat_seller m.lng_customer m.lat_customer

/-- A row of the frame returned by `get_distance_seller_customer`. -/
structure DistRow where
  order_id : String
  distance_seller_customer : ℚ
deriving DecidableEq

/-- Embeds `Order.get_distance_seller_customer`: compute the row-level distances on
the null-free matching table, then group by `order_id` and take the mean. -/
def get_distance_seller_customer (hav : DistFun) (d : Dataset) :
    List DistRow :=
  let mg := matchingGeoDropped d
  (keysOf (· ≤ ·) MatchedRow.order_id mg).map fun k =>
    let g := groupRows MatchedRow.order_id k mg
    { order_id := k
      distance_seller_customer := (g.map (distOf hav)).sum / g.length }

/-! ## `Order.get_training_data` -/

/-- A row of the final training frame. `distance_seller_customer` models a
column that exists only when `with_distance_seller_customer` is set; it is
`none` when the column is absent. -/
structure TrainingRow where
  order_id : String
  wait_time : Option ℚ
  expected_wait_time : Option ℚ
  delay_vs_expected : Option ℚ
  order_status : String
  dim_is_five_star : Int
  dim_is_one_star : Int
  review_score : Int
  number_of_items : Nat
  number_of_sellers : Nat
  price : ℚ
  freight_value : ℚ
  distance_seller_customer : Option ℚ
deriving DecidableEq

/-- The final `dropna()`: a row survives when every nullable column present
in the frame is non-null. The non-`Option` columns cannot be null; the
distance column belongs to the frame only when it was requested. -/
def rowComplete (withDist : Bool) (t : TrainingRow) : Bool :=
  t.wait_time.isSome && t.expected_wait_time.isSome &&
    t.delay_vs_expected.isSome &&
    (!withDist || t.distance_seller_customer.isSome)

/-- Assemble a `TrainingRow` from the four sequential inner merges
(the distance column not yet joined in). -/
def mkTrainingRow
    (p : ((WaitTimeRow × ReviewFeatureRow) × ItemsCountRow) × SellersCountRow)
    (pf : PriceFreightRow) : TrainingRow :=
  { order_id := p.1.1.1.order_id
    wait_time := p.1.1.1.wait_time
    expected_wait_time := p.1.1.1.expected_wait_time
    delay_vs_expected := p.1.1.1.delay_vs_expected
    order_status := p.1.1.1.order_status
    dim_is_five_star := p.1.1.2.dim_is_five_star
    dim_is_one_star := p.1.1.2.dim_is_one_star
    review_score := p.1.1.2.review_score
    number_of_items := p.1.2.number_of_items
    number_of_sellers := p.2.number_of_sellers
    price := pf.price
    freight_value := pf.freight_value
    distance_seller_customer := none }

/-- First iteration of the merge loop:
`training_data = wait_time.merge(review_score, on="order_id")`. -/
def training_m1 (d : Dataset) (is_delivered : Bool) :
    List (WaitTimeRow × ReviewFeatureRow) :=
  innerMergeOn WaitTimeRow.order_id ReviewFeatureRow.order_id Prod.mk
    (get_wait_time d.orders is_delivered) (get_review_score d.order_reviews)

/-- Second iteration: merge in `get_number_items`. -/
def training_m2 (d : Dataset) (is_delivered : Bool) :
    List ((WaitTimeRow × ReviewFeatureRow) × ItemsCountRow) :=
  innerMergeOn (fun p => p.1.order_id) ItemsCountRow.order_id Prod.mk
    (training_m1 d is_delivered) (get_number_items d.order_items)

/-- Third iteration: merge in `get_number_sellers`. -/
def training_m3 (d : Dataset) (is_delivered : Bool) :
    List (((WaitTimeRow × ReviewFeatureRow) × ItemsCountRow) ×
      SellersCountRow) :=
  innerMergeOn (fun p => p.1.1.order_id) SellersCountRow.order_id Prod.mk
    (training_m2 d is_delivered) (get_number_sellers d.order_items)

/-- Fourth iteration: merge in `get_price_and_freight`, assembling the
training rows (distance column still absent). -/
def training_base (d : Dataset) (is_delivered : Bool) : List TrainingRow :=
  innerMergeOn (fun p => p.1.1.1.order_id) PriceFreightRow.order_id
    mkTrainingRow (training_m3 d is_delivered)
    (get_price_and_freight d.order_items)

/-- Embeds `Order.get_training_data(is_delivered, with_distance_seller_customer)`:
sequentially inner-merge the five feature frames on `order_id`, optionally
merge the distance frame, then drop incomplete rows. -/
def get_training_data (hav : DistFun) (d : Dataset)
    (is_delivered with_distance_seller_customer : Bool) : List TrainingRow :=
  (if with_distance_seller_customer then
      innerMergeOn TrainingRow.order_id DistRow.order_id
        (fun t q =>
          { t with
            distance_seller_customer := some q.distance_seller_customer })
        (training_base d is_delivered) (get_distance_seller_customer hav d)
    else training_base d is_delivered).filter
    (rowComplete with_distance_seller_customer)

/-! ## Concrete sample data (used to exercise the theorems) -/

/-- The instant `n` days after the epoch, in nanoseconds. -/
def day (n : ℚ) : ℚ := n * nsPerDay

/-- Scenario B of the spec: purchased day 0, delivered day 8, estimated
day 5. -/
def scenarioOrder : OrderRow :=
  { order_id := "B", customer_id := "c1", order_status := "delivered"
    order_purchase_timestamp := some (day 0)
    order_approved_at := some (day 0)
    order_delivered_carrier_date := some (day 1)
    order_delivered_customer_date := some (day 8)
    order_estimated_delivery_date := some (day 5) }

/-- A one-order dataset on which every feature set is non-empty and every
join succeeds (seller zip 100 and customer zip 200 both geocoded). -/
def sampleData : Dataset :=
  { orders := [{ order_id := "o1", customer_id := "c1",
                 order_status := "delivered"
                 order_purchase_timestamp := some (day 0)
                 order_approved_at := some (day 0)
                 order_delivered_carrier_date := some (day 1)
                 order_delivered_customer_date := some (day 8)
                 order_estimated_delivery_date := some (day 5) }]
    order_items := [{ order_id := "o1", order_item_id := 1,
                      product_id := "p1", seller_id := "s1",
                      price := 10, freight_value := 2 }]
    order_reviews := [{ review_id := "r1", order_id := "o1",
                        review_score := 5 }]
    sellers := [{ seller_id := "s1", seller_zip := 100 }]
    customers := [{ customer_id := "c1", customer_zip := 200 }]
    geolocation := [{ geo_zip := 100, geolocation_lat := 1,
                      geolocation_lng := 1 },
                    { geo_zip := 200, geolocation_lat := 2,
                      geolocation_lng := 2 }] }

/-- The dataset `sampleData` with a second review row for the same order. -/
def dupReviewData : Dataset :=
  { sampleData with
    order_reviews := [{ review_id := "r1", order_id := "o1",
                        review_score := 5 },
                      { review_id := "r2", order_id := "o1",
                        review_score := 1 }] }

/-- A geolocation table in which zip prefix 10 appears twice with different
coordinates. -/
def dupGeo : List GeoRow :=
  [{ geo_zip := 10, geolocation_lat := 1, geolocation_lng := 2 },
   { geo_zip := 10, geolocation_lat := 3, geolocation_lng := 4 },
   { geo_zip := 11, geolocation_lat := 5, geolocation_lng := 6 }]

/-- A distance function used to instantiate the abstract parameter on
sample data. -/
def havZero : DistFun := fun _ _ _ _ => 0

/-! ## General lemmas about the relational combinators -/

theorem mem_innerMergeOn {α β γ : Type} {ka : α → String} {kb : β → String}
    {mk : α → β → γ} {l : List α} {r : List β} {c : γ} :
    c ∈ innerMergeOn ka kb mk l r ↔
      ∃ a ∈ l, ∃ b ∈ r, kb b = ka a ∧ c = mk a b := by
  simp only [innerMergeOn, List.mem_flatMap, List.mem_map, List.mem_filter,
    beq_iff_eq]
  constructor
  · rintro ⟨a, ha, b, ⟨hb, hk⟩, hc⟩
    exact ⟨a, ha, b, hb, hk, hc.symm⟩
  · rintro ⟨a, ha, b, hb, hk, hc⟩
    exact ⟨a, ha, b, ⟨hb, hk⟩, hc.symm⟩

theorem mem_groupRows {α κ : Type} [BEq κ] [LawfulBEq κ] {key : α → κ}
    {k : κ} {l : List α} {a : α} :
    a ∈ groupRows key k l ↔ a ∈ l ∧ key a = k := by
  simp [groupRows]

theorem mem_keysOf {α κ : Type} [DecidableEq κ] {r : κ → κ → Prop}
    [DecidableRel r] {key : α → κ} {l : List α} {k : κ} :
    k ∈ keysOf r key l ↔ ∃ a ∈ l, key a = k := by
  rw [keysOf, (List.perm_insertionSort r _).mem_iff, List.mem_dedup]
  simp [eq_comm]

theorem nodup_keysOf {α κ : Type} [DecidableEq κ] {r : κ → κ → Prop}
    [DecidableRel r] {key : α → κ} {l : List α} :
    (keysOf r key l).Nodup :=
  ((List.perm_insertionSort r (l.map key).dedup).symm).nodup
    (List.nodup_dedup _)

theorem groupRows_ne_nil {α κ : Type} [BEq κ] [LawfulBEq κ] {key : α → κ}
    {k : κ} {l : List α} (h : ∃ a ∈ l, key a = k) :
    groupRows key k l ≠ [] := by
  rcases h with ⟨a, ha, hk⟩
  intro hnil
  have : a ∈ groupRows key k l := mem_groupRows.mpr ⟨ha, hk⟩
  simp [hnil] at this

theorem groupRows_length_eq_count {α κ : Type} [BEq κ] [LawfulBEq κ]
    {key : α → κ} {k : κ} {l : List α} :
    (groupRows key k l).length = (l.map key).count k := by
  rw [groupRows, ← List.countP_eq_length_filter, List.count,
    List.countP_map]
  rfl

theorem exists_head_groupRows {α κ : Type} [DecidableEq κ] [BEq κ]
    [LawfulBEq κ] {r : κ → κ → Prop} [DecidableRel r] {key : α → κ}
    {l : List α} {k : κ} (hk : k ∈ keysOf r key l) :
    ∃ a, (groupRows key k l).head? = some a ∧ a ∈ l ∧ key a = k := by
  obtain ⟨a, ha, hka⟩ := mem_keysOf.mp hk
  have hne := groupRows_ne_nil ⟨a, ha, hka⟩
  cases hg : groupRows key k l with
  | nil => exact absurd hg hne
  | cons b t =>
    have hb : b ∈ groupRows key k l := by
      rw [hg]; exact List.mem_cons_self b t
    obtain ⟨hbl, hbk⟩ := mem_groupRows.mp hb
    exact ⟨b, by simp [hg], hbl, hbk⟩

theorem filter_filterMap_heads (geo : List GeoRow) (z : Nat) (g0 : GeoRow)
    (hg0 : (groupRows GeoRow.geo_zip z geo).head? = some g0) :
    ∀ ks : List Nat, ks.Nodup →
      (∀ k ∈ ks, ∃ gk,
        (groupRows GeoRow.geo_zip k geo).head? = some gk ∧
          gk.geo_zip = k) →
      (z ∈ ks →
        (ks.filterMap fun k =>
          (groupRows GeoRow.geo_zip k geo).head?).filter
            (fun g => g.geo_zip == z) = [g0]) ∧
      (z ∉ ks →
        (ks.filterMap fun k =>
          (groupRows GeoRow.geo_zip k geo).head?).filter
            (fun g => g.geo_zip == z) = []) := by
  intro ks
  induction ks with
  | nil => simp
  | cons k t ih =>
    intro hnd hall
    obtain ⟨hkt, hndt⟩ := List.nodup_cons.mp hnd
    obtain ⟨gk, hgk, hgkz⟩ := hall k (List.mem_cons_self k t)
    have iht := ih hndt fun k' hk' => hall k' (List.mem_cons_of_mem _ hk')
    constructor
    · intro hzin
      rcases List.mem_cons.mp hzin with hzk | hzt
      · subst hzk
        have hgg : gk = g0 := by
          rw [hg0] at hgk
          exact (Option.some.inj hgk).symm
        subst hgg
        simp only [List.filterMap_cons, hgk, List.filter_cons]
        rw [if_pos (by simp [hgkz])]
        rw [iht.2 hkt]
      · have hne : ¬(k = z) := fun hkz => hkt (hkz ▸ hzt)
        simp only [List.filterMap_cons, hgk, List.filter_cons]
        rw [if_neg (by simp [hgkz, hne])]
        exact iht.1 hzt
    · intro hzout
      have hne : ¬(k = z) := fun hkz => hzout (by simp [hkz])
      have hzt : z ∉ t := fun hzt => hzout (List.mem_cons_of_mem _ hzt)
      simp only [List.filterMap_cons, hgk, List.filter_cons]
      rw [if_neg (by simp [hgkz, hne])]
      exact iht.2 hzt

theorem mem_matchingGeoDropped {d : Dataset} {m : MatchedRow}
    (hm : m ∈ matchingGeoDropped d) :
    ∃ m0 ∈ matchingGeo d, m0.order_id = m.order_id ∧
      m0.lat_seller = some m.lat_seller ∧
      m0.lng_seller = some m.lng_seller ∧
      m0.lat_customer = some m.lat_customer ∧
      m0.lng_customer = some m.lng_customer := by
  rw [matchingGeoDropped, List.mem_filterMap] at hm
  obtain ⟨m0, hm0, hsome⟩ := hm
  refine ⟨m0, hm0, ?_⟩
  obtain ⟨oid, cid, sid, ls, gs, lc, gc⟩ := m0
  cases ls <;> cases gs <;> cases lc <;> cases gc <;> simp_all
  subst hsome
  exact ⟨rfl, rfl, rfl, rfl, rfl⟩

theorem nodup_of_length_le_one {α : Type} {l : List α}
    (h : l.length ≤ 1) : l.Nodup := by
  cases l with
  | nil => exact List.nodup_nil
  | cons a t =>
    cases t with
    | nil => exact List.nodup_singleton a
    | cons b u => simp at h

theorem length_filter_key_le_one {β : Type} {kb : β → String} {r : List β}
    (hr : (r.map kb).Nodup) (key : String) :
    (r.filter fun b => kb b == key).length ≤ 1 := by
  have h1 : (groupRows kb key r).length = (r.map kb).count key :=
    groupRows_length_eq_count
  rw [show (r.filter fun b => kb b == key) = groupRows kb key r from rfl,
    h1]
  exact List.nodup_iff_count_le_one.mp hr key

theorem mem_map_innerMergeOn {α β γ : Type} {ka : α → String}
    {kb : β → String} {mk : α → β → γ} {kc : γ → String} {l : List α}
    {r : List β} (hmk : ∀ a b, kc (mk a b) = ka a) {x : String}
    (hx : x ∈ (innerMergeOn ka kb mk l r).map kc) : x ∈ l.map ka := by
  obtain ⟨c, hc, rfl⟩ := List.mem_map.mp hx
  obtain ⟨a, ha, b, hb, hkab, rfl⟩ := mem_innerMergeOn.mp hc
  rw [hmk]
  exact List.mem_map_of_mem ka ha

theorem innerMergeOn_nodup {α β γ : Type} {ka : α → String}
    {kb : β → String} {mk : α → β → γ} {kc : γ → String} {l : List α}
    {r : List β} (hmk : ∀ a b, kc (mk a b) = ka a)
    (hl : (l.map ka).Nodup) (hr : (r.map kb).Nodup) :
    ((innerMergeOn ka kb mk l r).map kc).Nodup := by
  induction l with
  | nil => simp [innerMergeOn]
  | cons a l ih =>
    rw [List.map_cons] at hl
    obtain ⟨hal, hln⟩ := List.nodup_cons.mp hl
    have hsplit : innerMergeOn ka kb mk (a :: l) r =
        ((r.filter fun b => kb b == ka a).map fun b => mk a b) ++
          innerMergeOn ka kb mk l r := by
      simp [innerMergeOn]
    rw [hsplit, List.map_append, List.nodup_append]
    refine ⟨?_, ih hln, ?_⟩
    · apply nodup_of_length_le_one
      rw [List.length_map, List.length_map]
      exact length_filter_key_le_one hr (ka a)
    · intro x hx1 hx2
      have hxa : x = ka a := by
        obtain ⟨c, hc, rfl⟩ := List.mem_map.mp hx1
        obtain ⟨b, hb, rfl⟩ := List.mem_map.mp hc
        exact hmk a b
      have hxl : x ∈ l.map ka := mem_map_innerMergeOn hmk hx2
      rw [hxa] at hxl
      exact hal hxl

theorem nodup_keys_get_wait_time (orders : List OrderRow) (del : Bool)
    (h : (orders.map OrderRow.order_id).Nodup) :
    ((get_wait_time orders del).map WaitTimeRow.order_id).Nodup := by
  rw [get_wait_time, List.map_map]
  have he : ∀ os : List OrderRow,
      os.map (WaitTimeRow.order_id ∘ waitRowOf) = os.map OrderRow.order_id :=
    fun os => List.map_congr_left fun o _ => rfl
  rw [he]
  cases del with
  | false => simpa using h
  | true =>
    simp only [if_pos rfl]
    exact List.Nodup.sublist ((List.filter_sublist _).map OrderRow.order_id)
      h

theorem map_order_id_get_review_score (reviews : List ReviewRow) :
    (get_review_score reviews).map ReviewFeatureRow.order_id =
      reviews.map ReviewRow.order_id := by
  rw [get_review_score, List.map_map]
  exact List.map_congr_left fun r _ => rfl

theorem map_order_id_get_number_items (order_items : List OrderItemRow) :
    (get_number_items order_items).map ItemsCountRow.order_id =
      keysOf (· ≤ ·) OrderItemRow.order_id order_items := by
  rw [get_number_items, List.map_map]
  exact (List.map_congr_left fun k _ => rfl).trans (List.map_id _)

theorem map_order_id_get_number_sellers (order_items : List OrderItemRow) :
    (get_number_sellers order_items).map SellersCountRow.order_id =
      keysOf (· ≤ ·) OrderItemRow.order_id order_items := by
  rw [get_number_sellers, List.map_map]
  exact (List.map_congr_left fun k _ => rfl).trans (List.map_id _)

theorem map_order_id_get_price_and_freight
    (order_items : List OrderItemRow) :
    (get_price_and_freight order_items).map PriceFreightRow.order_id =
      keysOf (· ≤ ·) OrderItemRow.order_id order_items := by
  rw [get_price_and_freight, List.map_map]
  exact (List.map_congr_left fun k _ => rfl).trans (List.map_id _)

theorem map_order_id_get_distance (hav : DistFun) (d : Dataset) :
    (get_distance_seller_customer hav d).map DistRow.order_id =
      keysOf (· ≤ ·) MatchedRow.order_id (matchingGeoDropped d) := by
  rw [get_distance_seller_customer, List.map_map]
  exact (List.map_congr_left fun k _ => rfl).trans (List.map_id _)

theorem mem_training_base {d : Dataset} {del : Bool} {t : TrainingRow}
    (ht : t ∈ training_base d del) :
    ∃ w ∈ get_wait_time d.orders del,
    ∃ rv ∈ get_review_score d.order_reviews,
    ∃ ni ∈ get_number_items d.order_items,
    ∃ ns ∈ get_number_sellers d.order_items,
    ∃ pf ∈ get_price_and_freight d.order_items,
      rv.order_id = w.order_id ∧ ni.order_id = w.order_id ∧
      ns.order_id = w.order_id ∧ pf.order_id = w.order_id ∧
      t = mkTrainingRow (((w, rv), ni), ns) pf := by
  obtain ⟨p3, hp3, pf, hpf, hkpf, rfl⟩ := mem_innerMergeOn.mp ht
  obtain ⟨p2, hp2, ns, hns, hkns, rfl⟩ := mem_innerMergeOn.mp hp3
  obtain ⟨p1, hp1, ni, hni, hkni, rfl⟩ := mem_innerMergeOn.mp hp2
  obtain ⟨w, hw, rv, hrv, hkrv, rfl⟩ := mem_innerMergeOn.mp hp1
  exact ⟨w, hw, rv, hrv, ni, hni, ns, hns, pf, hpf, hkrv, hkni, hkns,
    hkpf, rfl⟩

theorem training_row_props {hav : DistFun} {d : Dataset} {del wd : Bool}
    {t : TrainingRow} (ht : t ∈ get_training_data hav d del wd) :
    t.order_id ∈ (get_wait_time d.orders del).map WaitTimeRow.order_id ∧
    t.order_id ∈
      (get_review_score d.order_reviews).map ReviewFeatureRow.order_id ∧
    t.order_id ∈
      (get_number_items d.order_items).map ItemsCountRow.order_id ∧
    t.order_id ∈
      (get_number_sellers d.order_items).map SellersCountRow.order_id ∧
    t.order_id ∈
      (get_price_and_freight d.order_items).map PriceFreightRow.order_id ∧
    (wd = true → t.order_id ∈
      (get_distance_seller_customer hav d).map DistRow.order_id) ∧
    rowComplete wd t = true := by
  rw [get_training_data] at ht
  obtain ⟨hmem, hcomp⟩ := List.mem_filter.mp ht
  refine ?_
  cases wd with
  | false =>
    rw [if_neg (by simp)] at hmem
    obtain ⟨w, hw, rv, hrv, ni, hni, ns, hns, pf, hpf, hkrv, hkni, hkns,
      hkpf, heq⟩ := mem_training_base hmem
    subst heq
    exact ⟨List.mem_map.mpr ⟨w, hw, rfl⟩, List.mem_map.mpr ⟨rv, hrv, hkrv⟩,
      List.mem_map.mpr ⟨ni, hni, hkni⟩, List.mem_map.mpr ⟨ns, hns, hkns⟩,
      List.mem_map.mpr ⟨pf, hpf, hkpf⟩,
      fun hwd => absurd hwd (by simp), hcomp⟩
  | true =>
    rw [if_pos rfl] at hmem
    obtain ⟨t4, ht4, q, hq, hkq, heq⟩ := mem_innerMergeOn.mp hmem
    subst heq
    obtain ⟨w, hw, rv, hrv, ni, hni, ns, hns, pf, hpf, hkrv, hkni, hkns,
      hkpf, heq4⟩ := mem_training_base ht4
    subst heq4
    exact ⟨List.mem_map.mpr ⟨w, hw, rfl⟩, List.mem_map.mpr ⟨rv, hrv, hkrv⟩,
      List.mem_map.mpr ⟨ni, hni, hkni⟩, List.mem_map.mpr ⟨ns, hns, hkns⟩,
      List.mem_map.mpr ⟨pf, hpf, hkpf⟩,
      fun _ => List.mem_map.mpr ⟨q, hq, hkq⟩, hcomp⟩

/-! ## Claims -/

/-- C2: for every order row whose purchase, delivered-to-customer and
estimated-delivery timestamps are present, `get_wait_time` emits the row
with `wait_time` and `expected_wait_time` equal to the corresponding
timestamp differences in fractional days and `delay_vs_expected` equal to
`max (wait_time - expected_wait_time) 0`; on an order purchased day 0,
delivered day 8, estimated day 5 it yields `wait_time = 8`,
`expected_wait_time = 5`, `delay_vs_expected = 3`. -/
theorem get_wait_time_formula :
    (∀ (orders : List OrderRow) (is_delivered : Bool) (o : OrderRow)
       (p dd e : ℚ),
       o ∈ orders →
       (is_delivered = true → o.order_status = "delivered") →
       o.order_purchase_timestamp = some p →
       o.order_delivered_customer_date = some dd →
       o.order_estimated_delivery_date = some e →
       ({ order_id := o.order_id
          wait_time := some ((dd - p) / nsPerDay)
          expected_wait_time := some ((e - p) / nsPerDay)
          delay_vs_expected :=
            some (max ((dd - p) / nsPerDay - (e - p) / nsPerDay) 0)
          order_status := o.order_status } : WaitTimeRow) ∈
         get_wait_time orders is_delivered) ∧
    get_wait_time [scenarioOrder] true =
      [{ order_id := "B", wait_time := some 8, expected_wait_time := some 5,
         delay_vs_expected := some 3, order_status := "delivered" }] := by
  constructor
  · intro orders is_delivered o p dd e ho hst hp hd he
    unfold get_wait_time
    refine List.mem_map.mpr ⟨o, ?_, ?_⟩
    · cases is_delivered with
      | false => simpa using ho
      | true =>
        simp only [if_pos rfl]
        exact List.mem_filter.mpr ⟨ho, by simp [hst rfl]⟩
    · simp [waitRowOf, calc_day_delta, nanSub, nanMax0, hp, hd, he]
  · have h5 : ((day 8 - day 0) / nsPerDay : ℚ) = 8 := by
      simp [day, nsPerDay]
    have h6 : ((day 5 - day 0) / nsPerDay : ℚ) = 5 := by
      simp [day, nsPerDay]
    simp [get_wait_time, waitRowOf, scenarioOrder, calc_day_delta, nanSub,
      nanMax0, h5, h6]
    norm_num

/-- Exercises `get_wait_time_formula` on scenario B. -/
theorem get_wait_time_formula_witness :
    ({ order_id := "B"
       wait_time := some ((day 8 - day 0) / nsPerDay)
       expected_wait_time := some ((day 5 - day 0) / nsPerDay)
       delay_vs_expected :=
         some (max ((day 8 - day 0) / nsPerDay - (day 5 - day 0) / nsPerDay) 0)
       order_status := "delivered" } : WaitTimeRow) ∈
      get_wait_time [scenarioOrder] true :=
  get_wait_time_formula.1 [scenarioOrder] true scenarioOrder (day 0) (day 8)
    (day 5) (List.mem_singleton_self _) (fun _ => rfl) rfl rfl rfl

/-- C8: every row emitted by `get_review_score` has
`dim_is_five_star = 1` exactly when `review_score = 5` (else `0`) and
`dim_is_one_star = 1` exactly when `review_score = 1` (else `0`); a score
of 3 yields 0 for both dummies. -/
theorem get_review_score_dummies :
    (∀ (reviews : List ReviewRow) (i : Nat)
       (h : i < (get_review_score reviews).length),
       ((get_review_score reviews)[i]).dim_is_five_star =
         (if ((get_review_score reviews)[i]).review_score = 5 then 1
          else 0) ∧
       ((get_review_score reviews)[i]).dim_is_one_star =
         (if ((get_review_score reviews)[i]).review_score = 1 then 1
          else 0)) ∧
    get_review_score
        [{ review_id := "r", order_id := "x", review_score := 3 }] =
      [{ order_id := "x", dim_is_five_star := 0, dim_is_one_star := 0,
         review_score := 3 }] := by
  constructor
  · intro reviews i h
    simp [get_review_score, List.getElem_map, beq_iff_eq]
  · decide

/-- Exercises `get_review_score_dummies` on a one-review table. -/
theorem get_review_score_dummies_witness :
    ((get_review_score
        [{ review_id := "r5", order_id := "y",
           review_score := 5 }]).get ⟨0, by decide⟩).dim_is_five_star =
      (if ((get_review_score
        [{ review_id := "r5", order_id := "y",
           review_score := 5 }]).get ⟨0, by decide⟩).review_score = 5
       then 1 else 0) :=
  (get_review_score_dummies.1
    [{ review_id := "r5", order_id := "y", review_score := 5 }] 0
    (by decide)).1

/-- C6: `get_number_items` assigns to each emitted row the number of
`order_items` rows carrying its `order_id`, and the `number_of_items`
column sums to the total `order_items` row count. -/
theorem get_number_items_counts :
    (∀ (order_items : List OrderItemRow) (i : Nat)
       (h : i < (get_number_items order_items).length),
       ((get_number_items order_items)[i]).number_of_items =
         (order_items.filter fun it =>
           it.order_id ==
             ((get_number_items order_items)[i]).order_id).length) ∧
    ∀ order_items : List OrderItemRow,
      ((get_number_items order_items).map
        ItemsCountRow.number_of_items).sum = order_items.length := by
  constructor
  · intro order_items i h
    simp [get_number_items, List.getElem_map, groupRows]
  · intro order_items
    have h1 : (get_number_items order_items).map
        ItemsCountRow.number_of_items =
        (keysOf (· ≤ ·) OrderItemRow.order_id order_items).map fun k =>
          (order_items.map OrderItemRow.order_id).count k := by
      rw [get_number_items, List.map_map]
      exact List.map_congr_left fun k _ => groupRows_length_eq_count
    rw [h1]
    have h2 := ((List.perm_insertionSort (· ≤ ·)
      (order_items.map OrderItemRow.order_id).dedup).map
        fun k => (order_items.map OrderItemRow.order_id).count k).sum_eq
    rw [keysOf, h2]
    simpa using List.sum_map_count_dedup_eq_length
      (order_items.map OrderItemRow.order_id)

/-- Exercises `get_number_items_counts` on the sample items table. -/
theorem get_number_items_counts_witness :
    ((get_number_items sampleData.order_items).get
        ⟨0, by decide⟩).number_of_items =
      (sampleData.order_items.filter fun it =>
        it.order_id ==
          ((get_number_items sampleData.order_items).get
            ⟨0, by decide⟩).order_id).length :=
  get_number_items_counts.1 sampleData.order_items 0 (by decide)

/-- C7: for rows of `get_number_sellers` and `get_number_items` carrying
the same `order_id`, the distinct-seller count is at most the item
count. -/
theorem number_sellers_le_number_items :
    ∀ (order_items : List OrderItemRow) (i j : Nat)
      (hi : i < (get_number_sellers order_items).length)
      (hj : j < (get_number_items order_items).length),
      ((get_number_sellers order_items)[i]).order_id =
        ((get_number_items order_items)[j]).order_id →
      ((get_number_sellers order_items)[i]).number_of_sellers ≤
        ((get_number_items order_items)[j]).number_of_items := by
  intro order_items i j hi hj hk
  simp only [get_number_sellers, get_number_items, List.getElem_map] at hk ⊢
  rw [hk]
  exact le_trans (List.Sublist.length_le (List.dedup_sublist _))
    (le_of_eq (List.length_map _ _))

/-- Exercises `number_sellers_le_number_items` on the sample items table. -/
theorem number_sellers_le_number_items_witness :
    ((get_number_sellers sampleData.order_items).get
        ⟨0, by decide⟩).number_of_sellers ≤
      ((get_number_items sampleData.order_items).get
        ⟨0, by decide⟩).number_of_items :=
  number_sellers_le_number_items sampleData.order_items 0 0 (by decide)
    (by decide) (by decide)

/-- C9: `get_training_data` is a pure function of the loaded snapshot and
the two flags: two invocations on the same input return the same
relation. -/
theorem get_training_data_deterministic :
    ∀ (hav : DistFun) (d : Dataset)
      (is_delivered with_distance_seller_customer : Bool)
      (r1 r2 : List TrainingRow),
      r1 = get_training_data hav d is_delivered
        with_distance_seller_customer →
      r2 = get_training_data hav d is_delivered
        with_distance_seller_customer →
      r1 = r2 := by
  intro hav d a b r1 r2 h1 h2
  rw [h1, h2]

/-- Exercises `get_training_data_deterministic` on the sample dataset. -/
theorem get_training_data_deterministic_witness :
    get_training_data havZero sampleData true true =
      get_training_data havZero sampleData true true :=
  get_training_data_deterministic havZero sampleData true true _ _ rfl rfl

/-- C4: for every geolocation relation and every zip prefix occurring in
it, the geo index contains exactly one row for that prefix, and that row —
latitude and longitude together — is the first row bearing the prefix in
source order. -/
theorem geoIndex_first_row :
    ∀ (geo : List GeoRow) (z : Nat), (∃ g ∈ geo, g.geo_zip = z) →
      ∃ g0, (geo.filter fun g => g.geo_zip == z).head? = some g0 ∧
        (geoIndex geo).filter (fun g => g.geo_zip == z) = [g0] := by
  intro geo z hz
  have hzk : z ∈ keysOf (· ≤ ·) GeoRow.geo_zip geo := mem_keysOf.mpr hz
  obtain ⟨g0, hg0, hg0l, hg0z⟩ := exists_head_groupRows hzk
  refine ⟨g0, by simpa [groupRows] using hg0, ?_⟩
  rw [geoIndex]
  exact (filter_filterMap_heads geo z g0 hg0 _ nodup_keysOf
    fun k hk => by
      obtain ⟨gk, hgk, _, hgkz⟩ := exists_head_groupRows hk
      exact ⟨gk, hgk, hgkz⟩).1 hzk

/-- Exercises `geoIndex_first_row` on a table where prefix 10 is
ambiguous. -/
theorem geoIndex_first_row_witness :
    ∃ g0, (dupGeo.filter fun g => g.geo_zip == 10).head? = some g0 ∧
      (geoIndex dupGeo).filter (fun g => g.geo_zip == 10) = [g0] :=
  geoIndex_first_row dupGeo 10
    ⟨{ geo_zip := 10, geolocation_lat := 1, geolocation_lng := 2 },
      List.mem_cons_self _ _, rfl⟩

/-- C3: every row of `get_distance_seller_customer` carries the unweighted
arithmetic mean of the per-item-line distances of its order's surviving
matching rows, the set of surviving rows for that order is non-empty, and
each surviving row stems from a matching row whose four coordinates were
all present (rows with a missing coordinate having been dropped). -/
theorem get_distance_mean :
    ∀ (hav : DistFun) (d : Dataset) (i : Nat)
      (h : i < (get_distance_seller_customer hav d).length),
      ((get_distance_seller_customer hav d)[i]).distance_seller_customer =
        ((groupRows MatchedRow.order_id
            ((get_distance_seller_customer hav d)[i]).order_id
            (matchingGeoDropped d)).map (distOf hav)).sum /
          (groupRows MatchedRow.order_id
            ((get_distance_seller_customer hav d)[i]).order_id
            (matchingGeoDropped d)).length ∧
      groupRows MatchedRow.order_id
          ((get_distance_seller_customer hav d)[i]).order_id
          (matchingGeoDropped d) ≠ [] ∧
      ∀ m ∈ groupRows MatchedRow.order_id
          ((get_distance_seller_customer hav d)[i]).order_id
          (matchingGeoDropped d),
        ∃ m0 ∈ matchingGeo d, m0.order_id = m.order_id ∧
          m0.lat_seller = some m.lat_seller ∧
          m0.lng_seller = some m.lng_seller ∧
          m0.lat_customer = some m.lat_customer ∧
          m0.lng_customer = some m.lng_customer := by
  intro hav d i h
  have hlen : i < (keysOf (· ≤ ·) MatchedRow.order_id
      (matchingGeoDropped d)).length := by
    simpa [get_distance_seller_customer] using h
  have hk : (keysOf (· ≤ ·) MatchedRow.order_id (matchingGeoDropped d))[i] ∈
      keysOf (· ≤ ·) MatchedRow.order_id (matchingGeoDropped d) :=
    List.getElem_mem hlen
  refine ⟨?_, ?_, ?_⟩
  · simp only [get_distance_seller_customer, List.getElem_map]
  · have hgr := groupRows_ne_nil (mem_keysOf.mp hk)
    simpa only [get_distance_seller_customer, List.getElem_map] using hgr
  · intro m hm
    simp only [get_distance_seller_customer, List.getElem_map] at hm
    exact mem_matchingGeoDropped (mem_groupRows.mp hm).1

/-- Exercises `get_distance_mean` on the sample dataset. -/
theorem get_distance_mean_witness :
    groupRows MatchedRow.order_id
        ((get_distance_seller_customer havZero sampleData).get
          ⟨0, by decide⟩).order_id (matchingGeoDropped sampleData) ≠ [] :=
  (get_distance_mean havZero sampleData 0 (by decide)).2.1

/-- C10: the output of `get_distance_seller_customer` has no duplicate
`order_id`, and every order in it has at least one matching item line for
which both the seller's and the customer's coordinates were found. -/
theorem get_distance_unique_orders :
    ∀ (hav : DistFun) (d : Dataset),
      ((get_distance_seller_customer hav d).map DistRow.order_id).Nodup ∧
      ∀ (i : Nat) (h : i < (get_distance_seller_customer hav d).length),
        ∃ m0 ∈ matchingGeo d,
          m0.order_id =
            ((get_distance_seller_customer hav d)[i]).order_id ∧
          (∃ x, m0.lat_seller = some x) ∧ (∃ x, m0.lng_seller = some x) ∧
          (∃ x, m0.lat_customer = some x) ∧
          (∃ x, m0.lng_customer = some x) := by
  intro hav d
  constructor
  · have h1 : (get_distance_seller_customer hav d).map DistRow.order_id =
        keysOf (· ≤ ·) MatchedRow.order_id (matchingGeoDropped d) := by
      rw [get_distance_seller_customer, List.map_map]
      exact (List.map_congr_left fun k _ => rfl).trans (List.map_id _)
    rw [h1]
    exact nodup_keysOf
  · intro i h
    have hlen : i < (keysOf (· ≤ ·) MatchedRow.order_id
        (matchingGeoDropped d)).length := by
      simpa [get_distance_seller_customer] using h
    have hk : (keysOf (· ≤ ·) MatchedRow.order_id
        (matchingGeoDropped d))[i] ∈
        keysOf (· ≤ ·) MatchedRow.order_id (matchingGeoDropped d) :=
      List.getElem_mem hlen
    obtain ⟨a, ha, hka⟩ := mem_keysOf.mp hk
    obtain ⟨m0, hm0, hoid, h1, h2, h3, h4⟩ := mem_matchingGeoDropped ha
    refine ⟨m0, hm0, ?_, ⟨_, h1⟩, ⟨_, h2⟩, ⟨_, h3⟩, ⟨_, h4⟩⟩
    simp only [get_distance_seller_customer, List.getElem_map]
    rw [hoid, hka]

/-- Exercises `get_distance_unique_orders` on the sample dataset. -/
theorem get_distance_unique_orders_witness :
    ∃ m0 ∈ matchingGeo sampleData,
      m0.order_id =
        ((get_distance_seller_customer havZero sampleData).get
          ⟨0, by decide⟩).order_id ∧
      (∃ x, m0.lat_seller = some x) ∧ (∃ x, m0.lng_seller = some x) ∧
      (∃ x, m0.lat_customer = some x) ∧ (∃ x, m0.lng_customer = some x) :=
  (get_distance_unique_orders havZero sampleData).2 0 (by decide)

/-- C1: every row of `get_training_data` joins successfully against all
five (six, with distance) feature frames — its `order_id` occurs in each
of them — and the row has no missing value in any column of the output
schema. -/
theorem get_training_data_joined :
    ∀ (hav : DistFun) (d : Dataset) (is_delivered wd : Bool) (i : Nat)
      (h : i < (get_training_data hav d is_delivered wd).length),
      ((get_training_data hav d is_delivered wd)[i]).order_id ∈
        (get_wait_time d.orders is_delivered).map WaitTimeRow.order_id ∧
      ((get_training_data hav d is_delivered wd)[i]).order_id ∈
        (get_review_score d.order_reviews).map ReviewFeatureRow.order_id ∧
      ((get_training_data hav d is_delivered wd)[i]).order_id ∈
        (get_number_items d.order_items).map ItemsCountRow.order_id ∧
      ((get_training_data hav d is_delivered wd)[i]).order_id ∈
        (get_number_sellers d.order_items).map SellersCountRow.order_id ∧
      ((get_training_data hav d is_delivered wd)[i]).order_id ∈
        (get_price_and_freight d.order_items).map
          PriceFreightRow.order_id ∧
      (wd = true → ((get_training_data hav d is_delivered wd)[i]).order_id ∈
        (get_distance_seller_customer hav d).map DistRow.order_id) ∧
      rowComplete wd ((get_training_data hav d is_delivered wd)[i]) =
        true := by
  intro hav d is_delivered wd i h
  exact training_row_props (List.getElem_mem h)

/-- Exercises `get_training_data_joined` on the sample dataset with the
distance feature requested. -/
theorem get_training_data_joined_witness :
    rowComplete true
        ((get_training_data havZero sampleData true true).get
          ⟨0, by decide⟩) = true :=
  (get_training_data_joined havZero sampleData true true 0
    (by decide)).2.2.2.2.2.2

/-- C5 counterexample: with two review rows for the one order of
`dupReviewData`, `get_training_data` emits two rows with the same
`order_id`, so the output is not duplicate-free as claimed. -/
theorem training_data_dup_order_id :
    ¬ ((get_training_data havZero dupReviewData true false).map
        TrainingRow.order_id).Nodup := by
  decide

/-- C5 (amended): when the orders table has no duplicate `order_id` and
the reviews table has at most one row per `order_id`, the training table
contains no duplicate `order_id`. -/
theorem training_data_nodup_order_id :
    ∀ (hav : DistFun) (d : Dataset) (is_delivered wd : Bool),
      (d.orders.map OrderRow.order_id).Nodup →
      (d.order_reviews.map ReviewRow.order_id).Nodup →
      ((get_training_data hav d is_delivered wd).map
        TrainingRow.order_id).Nodup := by
  intro hav d del wd ho hr
  have hw : ((get_wait_time d.orders del).map WaitTimeRow.order_id).Nodup :=
    nodup_keys_get_wait_time d.orders del ho
  have hrv : ((get_review_score d.order_reviews).map
      ReviewFeatureRow.order_id).Nodup := by
    rw [map_order_id_get_review_score]
    exact hr
  have h1 : ((training_m1 d del).map fun p => p.1.order_id).Nodup :=
    innerMergeOn_nodup (fun a b => rfl) hw hrv
  have hni : ((get_number_items d.order_items).map
      ItemsCountRow.order_id).Nodup := by
    rw [map_order_id_get_number_items]
    exact nodup_keysOf
  have h2 : ((training_m2 d del).map fun p => p.1.1.order_id).Nodup :=
    innerMergeOn_nodup (fun a b => rfl) h1 hni
  have hns : ((get_number_sellers d.order_items).map
      SellersCountRow.order_id).Nodup := by
    rw [map_order_id_get_number_sellers]
    exact nodup_keysOf
  have h3 : ((training_m3 d del).map fun p => p.1.1.1.order_id).Nodup :=
    innerMergeOn_nodup (fun a b => rfl) h2 hns
  have hpf : ((get_price_and_freight d.order_items).map
      PriceFreightRow.order_id).Nodup := by
    rw [map_order_id_get_price_and_freight]
    exact nodup_keysOf
  have h4 : ((training_base d del).map TrainingRow.order_id).Nodup :=
    innerMergeOn_nodup (fun a b => rfl) h3 hpf
  rw [get_training_data]
  cases wd with
  | false =>
    rw [if_neg (by simp)]
    exact List.Nodup.sublist
      ((List.filter_sublist _).map TrainingRow.order_id) h4
  | true =>
    rw [if_pos rfl]
    have hdist : ((get_distance_seller_customer hav d).map
        DistRow.order_id).Nodup := by
      rw [map_order_id_get_distance]
      exact nodup_keysOf
    have h5 : ((innerMergeOn TrainingRow.order_id DistRow.order_id
        (fun t q =>
          { t with
            distance_seller_customer := some q.distance_seller_customer })
        (training_base d del)
        (get_distance_seller_customer hav d)).map
          TrainingRow.order_id).Nodup :=
      innerMergeOn_nodup (fun a b => rfl) h4 hdist
    exact List.Nodup.sublist
      ((List.filter_sublist _).map TrainingRow.order_id) h5

/-- Exercises `training_data_nodup_order_id` on the sample dataset. -/
theorem training_data_nodup_order_id_witness :
    ((get_training_data havZero sampleData true true).map
      TrainingRow.order_id).Nodup :=
  training_data_nodup_order_id havZero sampleData true true (by decide)
    (by decide)

end Olist
